import Mathlib

/-!
Verification of the authentication subsystem of the freres_unis backend.

The definitions below are a shallow embedding of the Python sources:
  src/core/security.py   (SecurityUtils)
  src/core/jwt.py        (JWTUtils)
  src/core/config.py     (Settings defaults)
  src/core/auth_dependencies.py (require_role, require_permission)
  src/services/auth_service.py  (AuthService)
  src/services/otp_service.py   (OTPService)
  src/models/security.py (persisted rows)

Cryptographic primitives (SHA-256, bcrypt) are modelled symbolically: a
digest is a tagged value recording which pre-processing was applied to the
secret, and a bcrypt hash records its salt and the digest it was computed
from.  `bcrypt.checkpw` compares digests and fails (raises) on a malformed
stored hash, which the embedding models with `Except`.  Time is a `Nat`
(seconds); randomness (salts, codes, jti values) is passed in explicitly.
-/

namespace FreresUnis

/-! ## Symbolic cryptography (src/core/security.py uses hashlib + bcrypt) -/

/-- A digest value: either the SHA-256 of a secret (the current scheme
pre-hashes with SHA-256) or the raw secret bytes (the legacy scheme feeds
the secret to bcrypt directly). -/
inductive Digest (α : Type) where
  | sha256 (a : α)
  | raw (a : α)
deriving DecidableEq, Repr

/-- A well-formed bcrypt hash: the per-call salt and the digest hashed. -/
structure BcryptRec (α : Type) where
  salt : Nat
  data : Digest α
deriving DecidableEq, Repr

/-- A stored credential hash: either a well-formed bcrypt hash or a
malformed / unrecognized string, on which `bcrypt.checkpw` raises. -/
inductive StoredHash (α : Type) where
  | bcrypt (h : BcryptRec α)
  | malformed (s : String)
deriving DecidableEq, Repr

/-- Model of `bcrypt.hashpw(data, gensalt())`. -/
def bcrypt_hashpw {α : Type} (d : Digest α) (salt : Nat) : StoredHash α :=
  StoredHash.bcrypt ⟨salt, d⟩

/-- Model of `bcrypt.checkpw(data, stored)`: compares the presented digest
with the hashed one; raises (`Except.error`) on a malformed stored hash. -/
def bcrypt_checkpw {α : Type} [DecidableEq α] (d : Digest α) (h : StoredHash α) :
    Except Unit Bool :=
  match h with
  | StoredHash.bcrypt b => Except.ok (decide (d = b.data))
  | StoredHash.malformed _ => Except.error ()

/-- `SecurityUtils.hash_password` (security.py:43-51): SHA-256 pre-hash, then
bcrypt with a fresh salt. -/
def hash_password {α : Type} (password : α) (salt : Nat) : StoredHash α :=
  bcrypt_hashpw (Digest.sha256 password) salt

/-- `SecurityUtils.verify_password` (security.py:54-75): try the current
SHA256+bcrypt scheme first, swallowing any exception, then the legacy direct
bcrypt scheme, again swallowing exceptions; `False` when both fail. -/
def verify_password {α : Type} [DecidableEq α] (password : α) (stored : StoredHash α) :
    Bool :=
  match bcrypt_checkpw (Digest.sha256 password) stored with
  | Except.ok true => true
  | _ =>
    match bcrypt_checkpw (Digest.raw password) stored with
    | Except.ok true => true
    | _ => false

/-- `SecurityUtils.validate_password_strength` (security.py:77-85). -/
def validate_password_strength (password : String) : Bool × String :=
  if password.length < 8 then (false, "Password must be at least 8 characters")
  else if password.length > 128 then (false, "Password cannot exceed 128 characters")
  else if !(password.data.any Char.isDigit) then (false, "Must contain a number")
  else if !(password.data.any Char.isUpper) then (false, "Must contain uppercase")
  else if !(password.data.any Char.isLower) then (false, "Must contain lowercase")
  else (true, "Strong password")

/-- Matching a secret against a freshly made hash succeeds exactly when the
secrets coincide (injectivity of the symbolic digest). -/
theorem verify_password_hash_password_iff {α : Type} [DecidableEq α]
    (a b : α) (salt : Nat) :
    verify_password a (hash_password b salt) = true ↔ a = b := by
  unfold verify_password hash_password bcrypt_hashpw bcrypt_checkpw
  by_cases h : a = b
  · subst h; simp
  · simp only [Digest.sha256.injEq]
    rw [decide_eq_false h]
    simp [h]

/-- C4: round-trip of the credential store.  `verify_password` accepts the
hashed secret and rejects every other secret. -/
theorem password_roundtrip (s w : String) (salt : Nat) (hne : w ≠ s) :
    verify_password s (hash_password s salt) = true ∧
    verify_password w (hash_password s salt) = false := by
  constructor
  · exact (verify_password_hash_password_iff s s salt).mpr rfl
  · cases h : verify_password w (hash_password s salt)
    · rfl
    · exact absurd ((verify_password_hash_password_iff w s salt).mp h) hne

/-- Witness for C4 at concrete secrets. -/
theorem password_roundtrip_witness :
    verify_password "Secret1!" (hash_password "Secret1!" 0) = true ∧
    verify_password "wrong" (hash_password "Secret1!" 0) = false :=
  password_roundtrip "Secret1!" "wrong" 0 (by decide)

/-- C9: `verify_password` is total.  A malformed stored hash makes both
schemes raise, every exception is treated as no-match, so the result is
`false` rather than an error; a legacy hash (bcrypt applied directly to the
secret) still verifies via the second scheme after the first returns
no-match; a current-format hash verifies via the first scheme. -/
theorem verify_password_total :
    (∀ (p s : String), verify_password p (StoredHash.malformed s) = false) ∧
    (∀ (p : String) (salt : Nat),
      verify_password p (bcrypt_hashpw (Digest.raw p) salt) = true) ∧
    (∀ (p : String) (salt : Nat),
      verify_password p (hash_password p salt) = true) := by
  refine ⟨fun p s => rfl, fun p salt => ?_, fun p salt => ?_⟩
  · unfold verify_password bcrypt_hashpw bcrypt_checkpw
    simp
  · exact (verify_password_hash_password_iff p p salt).mpr rfl

/-! ## Configuration defaults (src/core/config.py) -/

def SECRET_KEY : String := "secret-key"

/-- config.py:74-75: `REFRESH_SECRET_KEY` falls back to `SECRET_KEY + "refresh"`. -/
def REFRESH_SECRET_KEY : String := SECRET_KEY ++ "refresh"

def ACCESS_TOKEN_EXPIRE_MINUTES : Nat := 15

def REFRESH_TOKEN_EXPIRE_DAYS : Nat := 30

def OTP_EXPIRE_MINUTES : Nat := 5

/-- config.py:33. -/
def MAX_FAIL : Nat := 5

/-- config.py:34 (suspension duration in minutes). -/
def SUSP_MIN : Nat := 30

/-! ## Account models (src/models/users.py, pos.py, clients.py) -/

inductive UserRoleE where
  | admin | checker | maker | user | partnerd | rh | finance
deriving DecidableEq, Repr

inductive UserStatusE where
  | active | suspended | banned | inactive | deleted
deriving DecidableEq, Repr

/-- `UserStatus.X.name` in Python (upper-case member name). -/
def statusName : UserStatusE → String
  | UserStatusE.active => "ACTIVE"
  | UserStatusE.suspended => "SUSPENDED"
  | UserStatusE.banned => "BANNED"
  | UserStatusE.inactive => "INACTIVE"
  | UserStatusE.deleted => "DELETED"

/-- `UserStatus.X.value` in Python (lower-case value). -/
def statusValue : UserStatusE → String
  | UserStatusE.active => "active"
  | UserStatusE.suspended => "suspended"
  | UserStatusE.banned => "banned"
  | UserStatusE.inactive => "inactive"
  | UserStatusE.deleted => "deleted"

/-- A role row of the `roles` table with its permission rows flattened to
their names (Role ↔ Permission many-to-many, models/role.py). -/
structure RoleRow where
  name : String
  permissions : List String
deriving DecidableEq, Repr

/-- Staff user (models/users.py `User`).  `roles` is the many-to-many
assignment through the `user_roles` join table. -/
structure UserAcc where
  id : Nat
  username : String
  email : String
  password_hash : Option (StoredHash String)
  role : UserRoleE
  roles : List RoleRow
  status : UserStatusE
  failed_attempts : Nat
  suspended_until : Option Nat
  allowed_login_start : Option Nat
  allowed_login_end : Option Nat
  last_login : Option Nat
  last_login_ip : Option String
  last_login_user_agent : Option String
  require_password_change : Bool
deriving DecidableEq, Repr

/-- POS terminal user (models/pos.py `POSUser`).  It has no
`failed_attempts`, `suspended_until` or `last_login` column. -/
structure POSUserAcc where
  id : Nat
  pos_id : Nat
  username : String
  phone : String
  email : String
  password_hash : Option (StoredHash String)
  pin_hash : Option (StoredHash String)
  is_active : Bool
  allowed_login_start : Option Nat
  allowed_login_end : Option Nat
  role : String
  last_login_ip : Option String
  last_login_user_agent : Option String
  require_password_change : Bool
deriving DecidableEq, Repr

inductive ClientStatusE where
  | active | suspended | banned | inactive | deleted
deriving DecidableEq, Repr

/-- Client (models/clients.py `Client`).  It has no `role` attribute (the
roles relationship is commented out) and no failure counters. -/
structure ClientAcc where
  id : Nat
  phone : String
  email : Option String
  status : ClientStatusE
  password_hash : Option (StoredHash String)
  pin_hash : Option (StoredHash String)
  last_login_ip : Option String
  last_login_user_agent : Option String
deriving DecidableEq, Repr

/-- The three polymorphic account kinds. -/
inductive Account where
  | user (u : UserAcc)
  | pos (p : POSUserAcc)
  | client (c : ClientAcc)
deriving DecidableEq, Repr

def accountId : Account → Nat
  | Account.user u => u.id
  | Account.pos p => p.id
  | Account.client c => c.id

/-- The `account_type` discriminator used by `create_tokens`
(auth_service.py:395-402). -/
def accountType : Account → String
  | Account.user _ => "user"
  | Account.pos _ => "pos"
  | Account.client _ => "client"

/-- `getattr(account, "role", None)` serialized into the token claims;
clients have no role attribute, encoded as the empty string. -/
def accountRole : Account → String
  | Account.user u =>
    match u.role with
    | UserRoleE.admin => "admin"
    | UserRoleE.checker => "checker"
    | UserRoleE.maker => "maker"
    | UserRoleE.user => "user"
    | UserRoleE.partnerd => "partner"
    | UserRoleE.rh => "rh"
    | UserRoleE.finance => "finance"
  | Account.pos p => p.role
  | Account.client _ => ""

/-! ## JWT model (src/core/security.py, src/core/jwt.py)

A token is its claim set plus the key it was signed with; `jwt.decode`
succeeds exactly when the presented key matches and the token is
unexpired.  A missing `jti` claim is encoded as the empty string (Python
reads it with `payload.get("jti")` and treats falsy values as absent). -/

structure JWTPayload where
  sub : Nat
  account_type : String
  role : String
  exp : Nat
  iat : Nat
  jti : String
  typ : String
deriving DecidableEq, Repr

structure JWT where
  payload : JWTPayload
  key : String
deriving DecidableEq, Repr

/-- `jose.jwt.decode(token, key, ...)`: signature and expiry check. -/
def jwt_decode (tok : JWT) (key : String) (now : Nat) : Option JWTPayload :=
  if tok.key = key ∧ now < tok.payload.exp then some tok.payload else none

/-- `JWTUtils.decode_access_token` (jwt.py:10-19): decode under the access
secret and reject a token whose type claim is not "access". -/
def decode_access_token (tok : JWT) (now : Nat) : Option JWTPayload :=
  match jwt_decode tok SECRET_KEY now with
  | none => none
  | some p => if p.typ = "access" then some p else none

/-- `SecurityUtils.verify_refresh_token` (security.py:154-161). -/
def verify_refresh_token (tok : JWT) (now : Nat) : Option JWTPayload :=
  match jwt_decode tok REFRESH_SECRET_KEY now with
  | none => none
  | some p => if p.typ = "refresh" then some p else none

/-! ## Persisted security rows (src/models/security.py, as used by the
services: the services address refresh-token and OTP rows through the
polymorphic `account_type` / `account_id` pair) -/

structure RefreshRow where
  account_type : String
  account_id : Nat
  token : StoredHash JWT
  device_info : Option String
  expires_at : Nat
  is_active : Bool
deriving DecidableEq, Repr

structure BlacklistRow where
  jti : String
  account_id : Nat
  account_type : String
  token : JWT
  expires_at : Nat
  reason : String
deriving DecidableEq, Repr

structure OTPRow where
  account_type : String
  account_id : Nat
  code : String
  purpose : String
  expires_at : Nat
  is_used : Bool
deriving DecidableEq, Repr

/-- The relational store as seen by the auth subsystem. -/
structure Db where
  users : List UserAcc
  posUsers : List POSUserAcc
  clients : List ClientAcc
  refreshTokens : List RefreshRow
  blacklist : List BlacklistRow
  otps : List OTPRow
deriving DecidableEq, Repr

/-- Mutating the first row an ORM query returned (`query(...).first()` then
assignment): rewrite the first list element satisfying the predicate. -/
def updateFirst {α : Type} (p : α → Bool) (f : α → α) : List α → List α
  | [] => []
  | x :: xs => if p x then f x :: xs else x :: updateFirst p f xs

/-- Decidable equality for `Except`, so that concrete witnesses can be
checked by evaluation. -/
instance exceptDecEq {ε α : Type} [DecidableEq ε] [DecidableEq α] :
    DecidableEq (Except ε α) := fun x y =>
  match x, y with
  | Except.ok a, Except.ok b =>
    if h : a = b then Decidable.isTrue (by rw [h])
    else Decidable.isFalse (fun hc => h (Except.ok.inj hc))
  | Except.error a, Except.error b =>
    if h : a = b then Decidable.isTrue (by rw [h])
    else Decidable.isFalse (fun hc => h (Except.error.inj hc))
  | Except.ok _, Except.error _ => Decidable.isFalse (fun hc => Except.noConfusion hc)
  | Except.error _, Except.ok _ => Decidable.isFalse (fun hc => Except.noConfusion hc)

/-- `JWTUtils.is_blacklisted` (jwt.py:21-23). -/
def is_blacklisted (db : Db) (jti : String) : Bool :=
  (db.blacklist.find? (fun b => b.jti == jti)).isSome

def findUser (db : Db) (i : Nat) : Option UserAcc :=
  db.users.find? (fun u => u.id == i)

def findPos (db : Db) (i : Nat) : Option POSUserAcc :=
  db.posUsers.find? (fun p => p.id == i)

def findClient (db : Db) (i : Nat) : Option ClientAcc :=
  db.clients.find? (fun c => c.id == i)

/-- The `model_map` dispatch plus the id lookup shared by
`validate_access_token`, `refresh_tokens` and `change_password`. -/
def lookupAccount (db : Db) (aty : String) (i : Nat) : Option Account :=
  if aty = "user" then (findUser db i).map Account.user
  else if aty = "pos" then (findPos db i).map Account.pos
  else if aty = "client" then (findClient db i).map Account.client
  else none

/-- `AuthService.validate_access_token` (auth_service.py:436-471): decode,
reject a blacklisted jti (only checked when the claim is present), require
the `account_type` claim, resolve the model and require the account row. -/
def validate_access_token (db : Db) (now : Nat) (tok : JWT) :
    Option (String × Account × JWTPayload) :=
  match decode_access_token tok now with
  | none => none
  | some p =>
    if p.jti ≠ "" ∧ is_blacklisted db p.jti then none
    else if p.account_type = "" then none
    else
      match lookupAccount db p.account_type p.sub with
      | none => none
      | some a => some (p.account_type, a, p)

/-- C2: an access token is accepted by `validate_access_token` iff its
signature verifies under the access secret, it is unexpired, its type claim
is "access", its jti is not blacklisted, and the referenced account row
exists; moreover a blacklisted jti always yields `none`, so a logged-out
token stays rejected while still cryptographically valid. -/
theorem validate_access_token_spec (db : Db) (now : Nat) (tok : JWT)
    (hjti : tok.payload.jti ≠ "") :
    ((validate_access_token db now tok).isSome ↔
      (tok.key = SECRET_KEY ∧ now < tok.payload.exp ∧ tok.payload.typ = "access" ∧
       is_blacklisted db tok.payload.jti = false ∧
       (lookupAccount db tok.payload.account_type tok.payload.sub).isSome)) ∧
    (is_blacklisted db tok.payload.jti = true →
      validate_access_token db now tok = none) := by
  have hlook : lookupAccount db "" tok.payload.sub = none := by
    simp [lookupAccount]
  unfold validate_access_token decode_access_token jwt_decode
  by_cases hk : tok.key = SECRET_KEY ∧ now < tok.payload.exp
  · rw [if_pos hk]
    dsimp only
    by_cases ht : tok.payload.typ = "access"
    · rw [if_pos ht]
      dsimp only
      by_cases hb : is_blacklisted db tok.payload.jti
      · simp [hjti, hb, hk.1, hk.2, ht]
      · rw [if_neg (by simp [hb])]
        by_cases ha : tok.payload.account_type = ""
        · rw [if_pos ha]
          constructor
          · simp only [Option.isSome_none, Bool.false_eq_true, false_iff]
            intro hc
            rw [ha, hlook] at hc
            exact absurd hc.2.2.2.2 (by simp)
          · intro _; rfl
        · rw [if_neg ha]
          cases hl : lookupAccount db tok.payload.account_type tok.payload.sub with
          | none => simp [hl, hk.1, hk.2, ht, hb]
          | some a =>
            constructor
            · simp [hl, hk.1, hk.2, ht, hb]
            · intro hbb; exact absurd hbb hb
    · rw [if_neg ht]
      dsimp only
      constructor
      · simp only [Option.isSome_none, Bool.false_eq_true, false_iff]
        intro hc; exact ht hc.2.2.1
      · intro _; rfl
  · rw [if_neg hk]
    dsimp only
    constructor
    · simp only [Option.isSome_none, Bool.false_eq_true, false_iff]
      intro hc; exact hk ⟨hc.1, hc.2.1⟩
    · intro _; rfl

/-- An example staff user used in concrete witnesses. -/
def exUser : UserAcc :=
  { id := 1, username := "alice", email := "a@x.com",
    password_hash := some (hash_password "Secret1!" 0), role := UserRoleE.user,
    roles := [], status := UserStatusE.active, failed_attempts := 0,
    suspended_until := none, allowed_login_start := none,
    allowed_login_end := none, last_login := none, last_login_ip := none,
    last_login_user_agent := none, require_password_change := false }

/-- Example access token for `exUser`. -/
def exAccessTok : JWT :=
  { payload := { sub := 1, account_type := "user", role := "user", exp := 1000,
                 iat := 0, jti := "j1", typ := "access" }, key := SECRET_KEY }

/-- A store with one staff user and an empty blacklist. -/
def exDbClean : Db :=
  { users := [exUser], posUsers := [], clients := [], refreshTokens := [],
    blacklist := [], otps := [] }

/-- The same store after the logout flow blacklisted jti "j1". -/
def exDbBlack : Db :=
  { exDbClean with blacklist :=
      [{ jti := "j1", account_id := 1, account_type := "user",
         token := exAccessTok, expires_at := 1000, reason := "logout" }] }

/-- Witness for C2: on the clean store the example token is accepted; once
its jti is blacklisted the very same token is rejected. -/
theorem validate_access_token_spec_witness :
    (validate_access_token exDbClean 10 exAccessTok).isSome = true ∧
    validate_access_token exDbBlack 10 exAccessTok = none := by
  constructor
  · exact (validate_access_token_spec exDbClean 10 exAccessTok (by decide)).1.mpr
      ⟨rfl, by decide, rfl, by decide, by decide⟩
  · exact (validate_access_token_spec exDbBlack 10 exAccessTok (by decide)).2
      (by decide)

/-! ## Token issuance and rotation (auth_service.py:387-434, 483-540) -/

/-- `SecurityUtils.hash_refresh_token` (security.py:164-166). -/
def hash_refresh_token (tok : JWT) (salt : Nat) : StoredHash JWT :=
  hash_password tok salt

/-- `SecurityUtils.verify_refresh_token_hash` (security.py:168-170). -/
def verify_refresh_token_hash (tok : JWT) (h : StoredHash JWT) : Bool :=
  verify_password tok h

/-- `SecurityUtils.create_access_token` (security.py:128-135): 15-minute
expiry, fresh jti, type claim "access", signed with the access secret. -/
def mk_access_token (sub : Nat) (aty role : String) (now : Nat) (jti : String) : JWT :=
  { payload := { sub := sub, account_type := aty, role := role,
                 exp := now + ACCESS_TOKEN_EXPIRE_MINUTES * 60, iat := now,
                 jti := jti, typ := "access" }, key := SECRET_KEY }

/-- `SecurityUtils.create_refresh_token` (security.py:137-143): 30-day
expiry, no jti claim, type claim "refresh", signed with the refresh secret. -/
def mk_refresh_token (sub : Nat) (aty role : String) (now : Nat) : JWT :=
  { payload := { sub := sub, account_type := aty, role := role,
                 exp := now + REFRESH_TOKEN_EXPIRE_DAYS * 86400, iat := now,
                 jti := "", typ := "refresh" }, key := REFRESH_SECRET_KEY }

structure TokenPair where
  access_token : JWT
  refresh_token : JWT
  access_expires_at : Nat
  refresh_expires_at : Nat
  jti : String
deriving DecidableEq, Repr

/-- `AuthService.create_tokens` (auth_service.py:387-434): mint an
access+refresh pair and persist only the hash of the refresh token.  The
fresh jti and bcrypt salt are passed in as explicit entropy. -/
def create_tokens (db : Db) (now : Nat) (acct : Account) (jti : String)
    (salt : Nat) (device : Option String) : TokenPair × Db :=
  let accessTok := mk_access_token (accountId acct) (accountType acct) (accountRole acct) now jti
  let refreshTok := mk_refresh_token (accountId acct) (accountType acct) (accountRole acct) now
  let row : RefreshRow :=
    { account_type := accountType acct, account_id := accountId acct,
      token := hash_refresh_token refreshTok salt, device_info := device,
      expires_at := refreshTok.payload.exp, is_active := true }
  ({ access_token := accessTok, refresh_token := refreshTok,
     access_expires_at := accessTok.payload.exp,
     refresh_expires_at := refreshTok.payload.exp, jti := jti },
   { db with refreshTokens := db.refreshTokens ++ [row] })

/-- The row filter of `refresh_tokens` (auth_service.py:503-509): active,
unexpired rows of the claimed subject. -/
def refreshMatches (now : Nat) (aty : String) (aid : Nat) (r : RefreshRow) : Bool :=
  r.account_type == aty && r.account_id == aid && r.is_active &&
    decide (now < r.expires_at)

/-- `AuthService.refresh_tokens` (auth_service.py:483-540): verify the
presented refresh JWT, find the matching active unexpired row by re-hashing,
resolve the account, deactivate the matched row and mint a new pair. -/
def refresh_tokens (db : Db) (now : Nat) (tok : JWT) (newJti : String)
    (newSalt : Nat) (device : Option String) : Option (TokenPair × Db) :=
  match verify_refresh_token tok now with
  | none => none
  | some p =>
    match (db.refreshTokens.filter (refreshMatches now p.account_type p.sub)).find?
        (fun r => verify_refresh_token_hash tok r.token) with
    | none => none
    | some _ =>
      match lookupAccount db p.account_type p.sub with
      | none => none
      | some acct =>
        let deactivated :=
          updateFirst
            (fun r => refreshMatches now p.account_type p.sub r &&
              verify_refresh_token_hash tok r.token)
            (fun r => { r with is_active := false }) db.refreshTokens
        some (create_tokens { db with refreshTokens := deactivated } now acct
          newJti newSalt device)

theorem updateFirst_cons {α : Type} (p : α → Bool) (f : α → α) (x : α) (xs : List α) :
    updateFirst p f (x :: xs) = if p x then f x :: xs else x :: updateFirst p f xs := rfl

theorem verify_refresh_token_inv (tok : JWT) (now : Nat) (p : JWTPayload)
    (h : verify_refresh_token tok now = some p) :
    p = tok.payload ∧ tok.key = REFRESH_SECRET_KEY ∧ now < tok.payload.exp ∧
    tok.payload.typ = "refresh" := by
  unfold verify_refresh_token jwt_decode at h
  by_cases hk : tok.key = REFRESH_SECRET_KEY ∧ now < tok.payload.exp
  · rw [if_pos hk] at h
    dsimp only at h
    by_cases ht : tok.payload.typ = "refresh"
    · rw [if_pos ht] at h
      injection h with h
      exact ⟨h.symm, hk.1, hk.2, ht⟩
    · rw [if_neg ht] at h; exact absurd h (by simp)
  · rw [if_neg hk] at h; exact absurd h (by simp)

theorem updateFirst_deactivate (B H : RefreshRow → Bool) (l : List RefreshRow)
    (r0 : RefreshRow)
    (hfind : (l.filter B).find? H = some r0)
    (huniq : (l.filter H).length ≤ 1) :
    ∀ r ∈ updateFirst (fun x => B x && H x)
        (fun x => { x with is_active := false }) l,
      H r = true → r.is_active = false := by
  induction l with
  | nil => intro r hr; simp [updateFirst] at hr
  | cons x xs ih =>
    intro r hr hHr
    by_cases hbx : (B x && H x) = true
    · rw [updateFirst_cons, if_pos hbx] at hr
      have hHx : H x = true := by
        have h2 := hbx
        simp only [Bool.and_eq_true] at h2
        exact h2.2
      have hfilxs : xs.filter H = [] := by
        have h1 := huniq
        rw [List.filter_cons_of_pos hHx] at h1
        simpa using h1
      rcases List.mem_cons.mp hr with hre | hrxs
      · subst hre; rfl
      · exfalso
        have hmem : r ∈ xs.filter H := List.mem_filter.mpr ⟨hrxs, hHr⟩
        rw [hfilxs] at hmem
        simp at hmem
    · rw [updateFirst_cons, if_neg hbx] at hr
      by_cases hHx : H x = true
      · exfalso
        have hBx : B x = false := by
          cases hBx2 : B x
          · rfl
          · exact absurd (by rw [Bool.and_eq_true]; exact ⟨hBx2, hHx⟩) hbx
        have hfilxs : xs.filter H = [] := by
          have h1 := huniq
          rw [List.filter_cons_of_pos hHx] at h1
          simpa using h1
        have hfbx : (x :: xs).filter B = xs.filter B :=
          List.filter_cons_of_neg (by simp [hBx])
        rw [hfbx] at hfind
        have hrecmem : r0 ∈ xs.filter B := List.mem_of_find?_eq_some hfind
        have hrecH : H r0 = true := List.find?_some hfind
        have hmem : r0 ∈ xs.filter H :=
          List.mem_filter.mpr ⟨(List.mem_filter.mp hrecmem).1, hrecH⟩
        rw [hfilxs] at hmem
        simp at hmem
      · rcases List.mem_cons.mp hr with hre | hrxs
        · subst hre; exact absurd hHr hHx
        · have hfil : (x :: xs).filter H = xs.filter H :=
            List.filter_cons_of_neg (by simp [hHx])
          have huniq2 : (xs.filter H).length ≤ 1 := by rw [hfil] at huniq; exact huniq
          have hfind2 : (xs.filter B).find? H = some r0 := by
            by_cases hBx : B x = true
            · rw [List.filter_cons_of_pos hBx] at hfind
              rw [List.find?_cons_of_neg _ (by simp [hHx])] at hfind
              exact hfind
            · rw [List.filter_cons_of_neg (by simp [hBx])] at hfind
              exact hfind
          exact ih hfind2 huniq2 r hrxs hHr

/-- C1: refresh-token rotation is single-use.  Acceptance is decided by
re-hashing the presented token against stored rows (a token matching no row
is rejected outright, whatever its claims say); an accepted call returns a
fresh access+refresh pair and deactivates the matched row, after which a
replay of the same raw token is rejected. -/
theorem refresh_rotation_single_use :
    (∀ (db : Db) (now : Nat) (tok : JWT) (jti : String) (salt : Nat)
        (dev : Option String),
      (∀ r ∈ db.refreshTokens, verify_refresh_token_hash tok r.token = false) →
      refresh_tokens db now tok jti salt dev = none) ∧
    (∀ (db : Db) (now : Nat) (tok : JWT) (jti : String) (salt : Nat)
        (dev : Option String) (pair : TokenPair) (db2 : Db),
      refresh_tokens db now tok jti salt dev = some (pair, db2) →
      (db.refreshTokens.filter
        (fun r => verify_refresh_token_hash tok r.token)).length ≤ 1 →
      pair.refresh_token ≠ tok →
      pair.access_token.payload.typ = "access" ∧
      pair.refresh_token.payload.typ = "refresh" ∧
      (∀ r ∈ db2.refreshTokens,
        verify_refresh_token_hash tok r.token = true → r.is_active = false) ∧
      (∀ (now2 : Nat) (jti2 : String) (salt2 : Nat) (dev2 : Option String),
        refresh_tokens db2 now2 tok jti2 salt2 dev2 = none)) := by
  constructor
  · intro db now tok jti salt dev hno
    unfold refresh_tokens
    cases hver : verify_refresh_token tok now with
    | none => rfl
    | some p =>
      dsimp only
      have hfind : (db.refreshTokens.filter
          (refreshMatches now p.account_type p.sub)).find?
          (fun r => verify_refresh_token_hash tok r.token) = none := by
        rw [List.find?_eq_none]
        intro r hrmem
        simp [hno r (List.mem_filter.mp hrmem).1]
      rw [hfind]
  · intro db now tok jti salt dev pair db2 hv huniq hfresh
    unfold refresh_tokens at hv
    cases hver : verify_refresh_token tok now with
    | none => rw [hver] at hv; exact absurd hv (by simp)
    | some p =>
      rw [hver] at hv
      dsimp only at hv
      cases hfind : (db.refreshTokens.filter
          (refreshMatches now p.account_type p.sub)).find?
          (fun r => verify_refresh_token_hash tok r.token) with
      | none => rw [hfind] at hv; exact absurd hv (by simp)
      | some r0 =>
        rw [hfind] at hv
        dsimp only at hv
        cases hacct : lookupAccount db p.account_type p.sub with
        | none => rw [hacct] at hv; exact absurd hv (by simp)
        | some acct =>
          rw [hacct] at hv
          dsimp only at hv
          injection hv with hv
          have hpair : pair =
              { access_token := mk_access_token (accountId acct)
                  (accountType acct) (accountRole acct) now jti,
                refresh_token := mk_refresh_token (accountId acct)
                  (accountType acct) (accountRole acct) now,
                access_expires_at := now + ACCESS_TOKEN_EXPIRE_MINUTES * 60,
                refresh_expires_at := now + REFRESH_TOKEN_EXPIRE_DAYS * 86400,
                jti := jti } := by
            have := congrArg Prod.fst hv
            simpa [create_tokens, mk_access_token, mk_refresh_token] using this.symm
          have hdb2 : db2.refreshTokens =
              updateFirst
                (fun r => refreshMatches now p.account_type p.sub r &&
                  verify_refresh_token_hash tok r.token)
                (fun r => { r with is_active := false }) db.refreshTokens ++
              [{ account_type := accountType acct, account_id := accountId acct,
                 token := hash_refresh_token (mk_refresh_token (accountId acct)
                   (accountType acct) (accountRole acct) now) salt,
                 device_info := dev,
                 expires_at := now + REFRESH_TOKEN_EXPIRE_DAYS * 86400,
                 is_active := true }] := by
            have := congrArg Prod.snd hv
            have h2 := this.symm
            simp only [create_tokens, mk_refresh_token] at h2
            rw [h2]
            simp [mk_refresh_token]
          have hnewne : mk_refresh_token (accountId acct) (accountType acct)
              (accountRole acct) now ≠ tok := by
            intro he
            apply hfresh
            rw [hpair, he]
          have hdeact : ∀ r ∈ db2.refreshTokens,
              verify_refresh_token_hash tok r.token = true →
              r.is_active = false := by
            intro r hr hHr
            rw [hdb2] at hr
            rcases List.mem_append.mp hr with hup | hnew
            · exact updateFirst_deactivate
                (refreshMatches now p.account_type p.sub)
                (fun r => verify_refresh_token_hash tok r.token)
                db.refreshTokens r0 hfind huniq r hup hHr
            · exfalso
              have hre : r = _ := List.mem_singleton.mp hnew
              rw [hre] at hHr
              simp only [verify_refresh_token_hash, hash_refresh_token] at hHr
              have := (verify_password_hash_password_iff tok
                (mk_refresh_token (accountId acct) (accountType acct)
                  (accountRole acct) now) salt).mp hHr
              exact hnewne this.symm
          refine ⟨by rw [hpair]; rfl, by rw [hpair]; rfl, hdeact, ?_⟩
          intro now2 jti2 salt2 dev2
          unfold refresh_tokens
          cases hver2 : verify_refresh_token tok now2 with
          | none => rfl
          | some p2 =>
            dsimp only
            have hfind2 : (db2.refreshTokens.filter
                (refreshMatches now2 p2.account_type p2.sub)).find?
                (fun r => verify_refresh_token_hash tok r.token) = none := by
              rw [List.find?_eq_none]
              intro r hrmem
              obtain ⟨hrdb, hrmatch⟩ := List.mem_filter.mp hrmem
              intro hHr
              have hina := hdeact r hrdb hHr
              unfold refreshMatches at hrmatch
              rw [hina] at hrmatch
              simp at hrmatch
            rw [hfind2]

/-- Example raw refresh token minted at login time 0 for `exUser`. -/
def exRefreshTok : JWT := mk_refresh_token 1 "user" "user" 0

/-- Persisted row holding the bcrypt hash of `exRefreshTok`. -/
def exRefreshRow : RefreshRow :=
  { account_type := "user", account_id := 1,
    token := hash_refresh_token exRefreshTok 5, device_info := none,
    expires_at := REFRESH_TOKEN_EXPIRE_DAYS * 86400, is_active := true }

/-- Store holding `exUser` and the persisted hash of `exRefreshTok`. -/
def exDbR : Db :=
  { users := [exUser], posUsers := [], clients := [], refreshTokens := [exRefreshRow],
    blacklist := [], otps := [] }

/-- Store whose only refresh row was hashed from a different token, so the
presented token hash-matches nothing even though its claims verify. -/
def exDbNoMatch : Db :=
  { exDbR with refreshTokens :=
      [{ exRefreshRow with token := hash_refresh_token (mk_refresh_token 1 "user" "user" 3) 5 }] }

def exStep1 : Option (TokenPair × Db) := refresh_tokens exDbR 10 exRefreshTok "j2" 7 none

def junkPair : TokenPair :=
  { access_token := exAccessTok, refresh_token := exAccessTok,
    access_expires_at := 0, refresh_expires_at := 0, jti := "" }

def exPair1 : TokenPair := (exStep1.getD (junkPair, exDbR)).1

def exDbR2 : Db := (exStep1.getD (junkPair, exDbR)).2

/-- Witness for C1: the concrete rotation succeeds once, the replay of the
same raw token against the rotated store fails, and a claims-only-valid
token that hash-matches no stored row is rejected. -/
theorem refresh_rotation_single_use_witness :
    exStep1.isSome = true ∧
    refresh_tokens exDbR2 20 exRefreshTok "j3" 8 none = none ∧
    refresh_tokens exDbNoMatch 10 exRefreshTok "j2" 7 none = none := by
  refine ⟨by decide, ?_, ?_⟩
  · have h : refresh_tokens exDbR 10 exRefreshTok "j2" 7 none = some (exPair1, exDbR2) := by
      decide
    exact (refresh_rotation_single_use.2 exDbR 10 exRefreshTok "j2" 7 none exPair1
      exDbR2 h (by decide) (by decide)).2.2.2 20 "j3" 8 none
  · exact refresh_rotation_single_use.1 exDbNoMatch 10 exRefreshTok "j2" 7 none
      (by decide)

/-! ## Logout (auth_service.py:720-753, security.py:305-326) -/

/-- The jti stored by `SecurityUtils.blacklist_token`:
`payload.get("jti") or payload.get("sub")`. -/
def unverified_jti (tok : JWT) : String :=
  if tok.payload.jti ≠ "" then tok.payload.jti else toString tok.payload.sub

/-- `SecurityUtils.blacklist_token` (security.py:305-326). -/
def blacklist_token (db : Db) (tok : JWT) (aid : Nat) (aty : String)
    (reason : String) : Db :=
  { db with blacklist := db.blacklist ++
      [{ jti := unverified_jti tok, account_id := aid, account_type := aty,
         token := tok, expires_at := tok.payload.exp, reason := reason }] }

/-- `account.__class__.__name__.lower()` (auth_service.py:726). -/
def classNameLower : Account → String
  | Account.user _ => "user"
  | Account.pos _ => "posuser"
  | Account.client _ => "client"

/-- `AuthService.logout_user` (auth_service.py:720-737): blacklist the
presented access token, then set `is_active = False` on every active
refresh-token row whose `account_id` equals the caller's id. -/
def logout_user (db : Db) (acct : Account) (tok : JWT) : Db :=
  let db1 := blacklist_token db tok (accountId acct) (classNameLower acct) "logout"
  { db1 with refreshTokens := db1.refreshTokens.map (fun r =>
      if r.account_id == accountId acct && r.is_active then
        { r with is_active := false } else r) }

/-- `AuthService.logout_all_devices` (auth_service.py:739-753). -/
def logout_all_devices (db : Db) (acct : Account) (tok : JWT) : Db :=
  let db1 := blacklist_token db tok (accountId acct) (classNameLower acct) "logout"
  { db1 with refreshTokens := db1.refreshTokens.map (fun r =>
      if r.account_id == accountId acct && r.is_active then
        { r with is_active := false } else r) }

/-- C10: single-device logout and all-device logout have the identical
effect, and every active refresh row whose `account_id` equals the caller's
numeric id is deactivated, with no condition on the row's `account_type`. -/
theorem logout_single_equals_all :
    (∀ (db : Db) (acct : Account) (tok : JWT),
      logout_user db acct tok = logout_all_devices db acct tok) ∧
    (∀ (db : Db) (acct : Account) (tok : JWT) (r : RefreshRow),
      r ∈ db.refreshTokens → r.account_id = accountId acct →
      r.is_active = true →
      ({ r with is_active := false } : RefreshRow) ∈
        (logout_user db acct tok).refreshTokens) := by
  constructor
  · intro db acct tok; rfl
  · intro db acct tok r hmem hid hact
    have hfun : (fun x : RefreshRow =>
        if x.account_id == accountId acct && x.is_active then
          { x with is_active := false } else x) r =
        ({ r with is_active := false } : RefreshRow) := by
      simp [hid, hact]
    have := List.mem_map_of_mem (fun x : RefreshRow =>
      if x.account_id == accountId acct && x.is_active then
        { x with is_active := false } else x) hmem
    rw [hfun] at this
    exact this

/-- A second device row of `exUser`. -/
def exRowB : RefreshRow :=
  { account_type := "user", account_id := 1,
    token := hash_refresh_token (mk_refresh_token 1 "user" "user" 50) 6,
    device_info := some "tablet", expires_at := 2596320, is_active := true }

/-- A refresh row of a client account that shares numeric id 1. -/
def exRowC : RefreshRow :=
  { account_type := "client", account_id := 1,
    token := hash_refresh_token (mk_refresh_token 1 "client" "" 60) 9,
    device_info := some "phone", expires_at := 2597184, is_active := true }

/-- Store with three active refresh rows: two devices of staff user 1 and
one of client 1. -/
def exDbTwo : Db :=
  { users := [exUser], posUsers := [], clients := [],
    refreshTokens := [exRefreshRow, exRowB, exRowC], blacklist := [], otps := [] }

/-- Witness for C10: the two logout flows coincide on the concrete store,
and the client-kind row sharing numeric id 1 is deactivated by the staff
user's logout. -/
theorem logout_single_equals_all_witness :
    logout_user exDbTwo (Account.user exUser) exAccessTok =
      logout_all_devices exDbTwo (Account.user exUser) exAccessTok ∧
    ({ exRowC with is_active := false } : RefreshRow) ∈
      (logout_user exDbTwo (Account.user exUser) exAccessTok).refreshTokens :=
  ⟨logout_single_equals_all.1 exDbTwo (Account.user exUser) exAccessTok,
   logout_single_equals_all.2 exDbTwo (Account.user exUser) exAccessTok exRowC
     (by decide) (by decide) (by decide)⟩

/-- Counterexample to C6 as stated: after `logout_user`, the other device
row `exRowB` of the same account does not keep `is_active = True` - the
code deactivates every active row of the account. -/
theorem logout_user_frame_counterexample :
    exRowB.is_active = true ∧
    (logout_user exDbTwo (Account.user exUser) exAccessTok).refreshTokens[1]? =
      some { exRowB with is_active := false } := by
  constructor
  · rfl
  · decide

/-- C6 amended: `logout_user` blacklists the presented token's jti and
deactivates every active refresh row carrying the caller's account id (all
devices), while rows of other account ids are left unchanged. -/
theorem logout_user_amended (db : Db) (acct : Account) (tok : JWT) :
    (logout_user db acct tok).blacklist =
      db.blacklist ++
        [{ jti := unverified_jti tok, account_id := accountId acct,
           account_type := classNameLower acct, token := tok,
           expires_at := tok.payload.exp, reason := "logout" }] ∧
    (∀ r ∈ db.refreshTokens, r.account_id = accountId acct →
      r.is_active = true →
      ({ r with is_active := false } : RefreshRow) ∈
        (logout_user db acct tok).refreshTokens) ∧
    (∀ r ∈ db.refreshTokens, r.account_id ≠ accountId acct →
      r ∈ (logout_user db acct tok).refreshTokens) := by
  refine ⟨rfl, ?_, ?_⟩
  · intro r hmem hid hact
    have hfun : (fun x : RefreshRow =>
        if x.account_id == accountId acct && x.is_active then
          { x with is_active := false } else x) r =
        ({ r with is_active := false } : RefreshRow) := by
      simp [hid, hact]
    have := List.mem_map_of_mem (fun x : RefreshRow =>
      if x.account_id == accountId acct && x.is_active then
        { x with is_active := false } else x) hmem
    rw [hfun] at this
    exact this
  · intro r hmem hid
    have hfun : (fun x : RefreshRow =>
        if x.account_id == accountId acct && x.is_active then
          { x with is_active := false } else x) r = r := by
      simp [hid]
    have := List.mem_map_of_mem (fun x : RefreshRow =>
      if x.account_id == accountId acct && x.is_active then
        { x with is_active := false } else x) hmem
    rw [hfun] at this
    exact this

/-- A refresh row belonging to a different numeric account id. -/
def exRowOther : RefreshRow :=
  { account_type := "user", account_id := 2,
    token := hash_refresh_token (mk_refresh_token 2 "user" "user" 70) 11,
    device_info := none, expires_at := 2598048, is_active := true }

def exDbFrame : Db := { exDbTwo with refreshTokens := [exRefreshRow, exRowB, exRowOther] }

/-- Witness for the amended C6: device row `exRowB` is deactivated and the
row of account id 2 survives untouched. -/
theorem logout_user_amended_witness :
    ({ exRowB with is_active := false } : RefreshRow) ∈
      (logout_user exDbFrame (Account.user exUser) exAccessTok).refreshTokens ∧
    exRowOther ∈ (logout_user exDbFrame (Account.user exUser) exAccessTok).refreshTokens :=
  ⟨(logout_user_amended exDbFrame (Account.user exUser) exAccessTok).2.1 exRowB
     (by decide) (by decide) (by decide),
   (logout_user_amended exDbFrame (Account.user exUser) exAccessTok).2.2 exRowOther
     (by decide) (by decide)⟩

/-- `identifier.strip().lower()` and SQL `ilike` are modelled by
lower-casing every character (list-based so that proofs can evaluate). -/
def lowerStr (s : String) : String := String.mk (s.data.map Char.toLower)

/-- Python `"@" in identifier`. -/
def containsAt (s : String) : Bool := s.data.contains '@'

/-! ## OTP service (otp_service.py, core/otp.py) -/

/-- The account dispatch of `OTPService.generate_otp`
(otp_service.py:27-39): only `User` and `POSUser` are supported, a `Client`
raises `ValueError`; yields (account_type, account_id, email). -/
def otpAccountInfo : Account → Option (String × Nat × String)
  | Account.user u => some ("user", u.id, u.email)
  | Account.pos p => some ("pos", p.id, p.email)
  | Account.client _ => none

/-- The delete-query of `generate_otp` (otp_service.py:43-48): unused rows
of the same (account_type, account_id, purpose). -/
def unusedPairFilter (aty : String) (aid : Nat) (purpose : String) (r : OTPRow) : Bool :=
  r.account_type == aty && r.account_id == aid && r.purpose == purpose &&
    r.is_used == false

/-- The lookup query of `verify_otp` (otp_service.py:96-103): unused,
unexpired row of the account with the presented code and purpose. -/
def otpQuery (now : Nat) (aty : String) (aid : Nat) (code purpose : String)
    (r : OTPRow) : Bool :=
  r.account_type == aty && r.account_id == aid && r.code == code &&
    r.purpose == purpose && r.is_used == false && decide (now < r.expires_at)

/-- `OTPService.generate_otp` (otp_service.py:16-73): delete every unused
row for the (account, purpose) pair, then insert the fresh code with a
5-minute expiry.  The random 6-digit code is passed in as entropy. -/
def generate_otp (db : Db) (acct : Account) (purpose : String) (code : String)
    (now : Nat) : Option (String × Db) :=
  match otpAccountInfo acct with
  | none => none
  | some (aty, aid, _) =>
    let remaining := db.otps.filter (fun r => !(unusedPairFilter aty aid purpose r))
    let newRow : OTPRow :=
      { account_type := aty, account_id := aid, code := code, purpose := purpose,
        expires_at := now + OTP_EXPIRE_MINUTES * 60, is_used := false }
    some (code, { db with otps := remaining ++ [newRow] })

/-- Marking the matched OTP row used (`otp_record.is_used = True`). -/
def consumeOtp (db : Db) (now : Nat) (aty : String) (aid : Nat)
    (code purpose : String) : Db :=
  let otps2 := updateFirst (otpQuery now aty aid code purpose)
    (fun r => { r with is_used := true }) db.otps
  { db with otps := otps2 }

/-- Branch 1 of `verify_otp` (otp_service.py:92-111): staff user by email. -/
def verify_otp_user_email (db : Db) (now : Nat) (ident code purpose : String) :
    Option (Account × Db) :=
  match db.users.find? (fun u => lowerStr u.email == ident) with
  | none => none
  | some u =>
    match db.otps.find? (otpQuery now "user" u.id code purpose) with
    | none => none
    | some _ =>
      let db1 := consumeOtp db now "user" u.id code purpose
      let u2 : UserAcc := { u with last_login := some now }
      let users2 := updateFirst (fun x => lowerStr x.email == ident) (fun _ => u2) db1.users
      some (Account.user u2, { db1 with users := users2 })

/-- Branch 2 of `verify_otp` (otp_service.py:113-133): POS user by email. -/
def verify_otp_pos_email (db : Db) (now : Nat) (ident code purpose : String) :
    Option (Account × Db) :=
  match db.posUsers.find? (fun p => lowerStr p.email == ident) with
  | none => none
  | some p =>
    match db.otps.find? (otpQuery now "pos" p.id code purpose) with
    | none => none
    | some _ => some (Account.pos p, consumeOtp db now "pos" p.id code purpose)

/-- Branch 3 of `verify_otp` (otp_service.py:135-155): POS user by phone. -/
def verify_otp_pos_phone (db : Db) (now : Nat) (ident code purpose : String) :
    Option (Account × Db) :=
  match db.posUsers.find? (fun p => p.phone == ident) with
  | none => none
  | some p =>
    match db.otps.find? (otpQuery now "pos" p.id code purpose) with
    | none => none
    | some _ => some (Account.pos p, consumeOtp db now "pos" p.id code purpose)

/-- `OTPService.verify_otp` (otp_service.py:75-158): normalize the
identifier, then try user-by-email, POS-by-email, POS-by-phone in turn; on
a match mark the row used; uniform `none` otherwise. -/
def verify_otp (db : Db) (now : Nat) (identifier code purpose : String) :
    Option Account × Db :=
  let ident := lowerStr identifier
  if containsAt ident then
    match verify_otp_user_email db now ident code purpose with
    | some (a, db2) => (some a, db2)
    | none =>
      match verify_otp_pos_email db now ident code purpose with
      | some (a, db2) => (some a, db2)
      | none => (none, db)
  else
    match verify_otp_pos_phone db now ident code purpose with
    | some (a, db2) => (some a, db2)
    | none => (none, db)

/-- The unused rows carrying a given raw code and purpose. -/
def unusedCodeFilter (code purpose : String) (r : OTPRow) : Bool :=
  r.code == code && r.purpose == purpose && r.is_used == false

theorem filter_not_self {α : Type} (P : α → Bool) (l : List α) :
    (l.filter (fun r => !(P r))).filter P = [] := by
  induction l with
  | nil => rfl
  | cons x xs ih =>
    by_cases h : P x = true
    · rw [List.filter_cons_of_neg (by simp [h])]
      exact ih
    · rw [List.filter_cons_of_pos (by simp [h]), List.filter_cons_of_neg (by simp [h])]
      exact ih

theorem updateFirst_consume (Q F : OTPRow → Bool) (l : List OTPRow) (r0 : OTPRow)
    (hfind : l.find? Q = some r0)
    (hQF : ∀ r, Q r = true → F r = true)
    (hFm : ∀ r : OTPRow, F { r with is_used := true } = false)
    (huniq : (l.filter F).length ≤ 1) :
    (updateFirst Q (fun r => { r with is_used := true }) l).filter F = [] := by
  induction l with
  | nil => rfl
  | cons x xs ih =>
    by_cases hqx : Q x = true
    · rw [updateFirst_cons, if_pos hqx]
      have hFx : F x = true := hQF x hqx
      have hfilxs : xs.filter F = [] := by
        have h1 := huniq
        rw [List.filter_cons_of_pos hFx] at h1
        simpa using h1
      rw [List.filter_cons_of_neg (by simp [hFm x]), hfilxs]
    · rw [updateFirst_cons, if_neg hqx]
      have hfind2 : xs.find? Q = some r0 := by
        rw [List.find?_cons_of_neg _ (by simp [hqx])] at hfind
        exact hfind
      have hFx : F x = false := by
        cases hFx2 : F x
        · rfl
        · exfalso
          have hfilxs : xs.filter F = [] := by
            have h1 := huniq
            rw [List.filter_cons_of_pos hFx2] at h1
            simpa using h1
          have hr0xs : r0 ∈ xs := List.mem_of_find?_eq_some hfind2
          have hr0F : F r0 = true := hQF r0 (List.find?_some hfind2)
          have : r0 ∈ xs.filter F := List.mem_filter.mpr ⟨hr0xs, hr0F⟩
          rw [hfilxs] at this
          simp at this
      have huniq2 : (xs.filter F).length ≤ 1 := by
        rw [List.filter_cons_of_neg (by simp [hFx])] at huniq
        exact huniq
      rw [List.filter_cons_of_neg (by simp [hFx])]
      exact ih hfind2 huniq2

theorem otpQuery_implies_unusedCode (now : Nat) (aty : String) (aid : Nat)
    (code purpose : String) (r : OTPRow)
    (h : otpQuery now aty aid code purpose r = true) :
    unusedCodeFilter code purpose r = true := by
  simp only [otpQuery, Bool.and_eq_true] at h
  simp only [unusedCodeFilter, Bool.and_eq_true]
  exact ⟨⟨h.1.1.1.2, h.1.1.2⟩, h.1.2⟩

theorem verify_otp_none_of_no_unused (db : Db) (now : Nat)
    (ident code purpose : String)
    (hnone : ∀ r ∈ db.otps, unusedCodeFilter code purpose r = false) :
    (verify_otp db now ident code purpose).1 = none := by
  have hq : ∀ (aty : String) (aid : Nat),
      db.otps.find? (otpQuery now aty aid code purpose) = none := by
    intro aty aid
    rw [List.find?_eq_none]
    intro r hr hQ
    have h1 := otpQuery_implies_unusedCode now aty aid code purpose r hQ
    rw [hnone r hr] at h1
    cases h1
  unfold verify_otp
  dsimp only
  by_cases hat : containsAt (lowerStr ident)
  · rw [if_pos hat]
    have hu : verify_otp_user_email db now (lowerStr ident) code purpose = none := by
      unfold verify_otp_user_email
      cases hfu : db.users.find? (fun u => lowerStr u.email == lowerStr ident) with
      | none => rfl
      | some u =>
        dsimp only
        rw [hq "user" u.id]
    have hp : verify_otp_pos_email db now (lowerStr ident) code purpose = none := by
      unfold verify_otp_pos_email
      cases hfp : db.posUsers.find? (fun p => lowerStr p.email == lowerStr ident) with
      | none => rfl
      | some p =>
        dsimp only
        rw [hq "pos" p.id]
    rw [hu, hp]
  · rw [if_neg hat]
    have hp : verify_otp_pos_phone db now (lowerStr ident) code purpose = none := by
      unfold verify_otp_pos_phone
      cases hfp : db.posUsers.find? (fun p => p.phone == lowerStr ident) with
      | none => rfl
      | some p =>
        dsimp only
        rw [hq "pos" p.id]
    rw [hp]

theorem verify_otp_user_email_inv (db : Db) (now : Nat)
    (ident code purpose : String) (a : Account) (db2 : Db)
    (h : verify_otp_user_email db now ident code purpose = some (a, db2)) :
    ∃ u r0, db.users.find? (fun u => lowerStr u.email == ident) = some u ∧
      db.otps.find? (otpQuery now "user" u.id code purpose) = some r0 ∧
      db2.otps = updateFirst (otpQuery now "user" u.id code purpose)
        (fun r => { r with is_used := true }) db.otps := by
  unfold verify_otp_user_email at h
  cases hfu : db.users.find? (fun u => lowerStr u.email == ident) with
  | none => rw [hfu] at h; exact absurd h (by simp)
  | some u =>
    rw [hfu] at h
    dsimp only at h
    cases hfo : db.otps.find? (otpQuery now "user" u.id code purpose) with
    | none => rw [hfo] at h; exact absurd h (by simp)
    | some r0 =>
      rw [hfo] at h
      dsimp only at h
      injection h with h
      refine ⟨u, r0, rfl, hfo, ?_⟩
      have := congrArg Prod.snd h
      dsimp only at this
      rw [← this]
      rfl

theorem verify_otp_pos_email_inv (db : Db) (now : Nat)
    (ident code purpose : String) (a : Account) (db2 : Db)
    (h : verify_otp_pos_email db now ident code purpose = some (a, db2)) :
    ∃ p r0, db.posUsers.find? (fun p => lowerStr p.email == ident) = some p ∧
      db.otps.find? (otpQuery now "pos" p.id code purpose) = some r0 ∧
      db2.otps = updateFirst (otpQuery now "pos" p.id code purpose)
        (fun r => { r with is_used := true }) db.otps := by
  unfold verify_otp_pos_email at h
  cases hfu : db.posUsers.find? (fun p => lowerStr p.email == ident) with
  | none => rw [hfu] at h; exact absurd h (by simp)
  | some p =>
    rw [hfu] at h
    dsimp only at h
    cases hfo : db.otps.find? (otpQuery now "pos" p.id code purpose) with
    | none => rw [hfo] at h; exact absurd h (by simp)
    | some r0 =>
      rw [hfo] at h
      dsimp only at h
      injection h with h
      refine ⟨p, r0, rfl, hfo, ?_⟩
      have := congrArg Prod.snd h
      dsimp only at this
      rw [← this]
      rfl

theorem verify_otp_pos_phone_inv (db : Db) (now : Nat)
    (ident code purpose : String) (a : Account) (db2 : Db)
    (h : verify_otp_pos_phone db now ident code purpose = some (a, db2)) :
    ∃ p r0, db.posUsers.find? (fun p => p.phone == ident) = some p ∧
      db.otps.find? (otpQuery now "pos" p.id code purpose) = some r0 ∧
      db2.otps = updateFirst (otpQuery now "pos" p.id code purpose)
        (fun r => { r with is_used := true }) db.otps := by
  unfold verify_otp_pos_phone at h
  cases hfu : db.posUsers.find? (fun p => p.phone == ident) with
  | none => rw [hfu] at h; exact absurd h (by simp)
  | some p =>
    rw [hfu] at h
    dsimp only at h
    cases hfo : db.otps.find? (otpQuery now "pos" p.id code purpose) with
    | none => rw [hfo] at h; exact absurd h (by simp)
    | some r0 =>
      rw [hfo] at h
      dsimp only at h
      injection h with h
      refine ⟨p, r0, rfl, hfo, ?_⟩
      have := congrArg Prod.snd h
      dsimp only at this
      rw [← this]
      rfl

/-- C5: OTP codes are exclusive and single-use.  Generating a code leaves
exactly the fresh row as the unused row of its (account, purpose) pair; a
successful verification consumes the only unused row carrying the presented
code, so re-verifying the same code yields the uniform not-found outcome. -/
theorem otp_exclusive_single_use :
    (∀ (db : Db) (acct : Account) (purpose code : String) (now : Nat)
        (aty : String) (aid : Nat) (em c : String) (db2 : Db),
      otpAccountInfo acct = some (aty, aid, em) →
      generate_otp db acct purpose code now = some (c, db2) →
      db2.otps.filter (unusedPairFilter aty aid purpose) =
        [{ account_type := aty, account_id := aid, code := code,
           purpose := purpose, expires_at := now + OTP_EXPIRE_MINUTES * 60,
           is_used := false }]) ∧
    (∀ (db : Db) (now : Nat) (ident code purpose : String) (a : Account) (db2 : Db),
      (db.otps.filter (unusedCodeFilter code purpose)).length ≤ 1 →
      verify_otp db now ident code purpose = (some a, db2) →
      db2.otps.filter (unusedCodeFilter code purpose) = [] ∧
      ∀ (now2 : Nat), (verify_otp db2 now2 ident code purpose).1 = none) := by
  constructor
  · intro db acct purpose code now aty aid em c db2 hinfo hgen
    unfold generate_otp at hgen
    rw [hinfo] at hgen
    dsimp only at hgen
    injection hgen with hgen
    have hdb2 : db2.otps =
        (db.otps.filter (fun r => !(unusedPairFilter aty aid purpose r))) ++
          [{ account_type := aty, account_id := aid, code := code,
             purpose := purpose, expires_at := now + OTP_EXPIRE_MINUTES * 60,
             is_used := false }] := by
      have h2 := congrArg Prod.snd hgen
      dsimp only at h2
      rw [← h2]
    rw [hdb2, List.filter_append, filter_not_self]
    rw [List.filter_cons_of_pos (by simp [unusedPairFilter])]
    rfl
  · intro db now ident code purpose a db2 huniq hv
    have hmarked : ∀ (r : OTPRow),
        unusedCodeFilter code purpose ({ r with is_used := true } : OTPRow) = false := by
      intro r
      simp [unusedCodeFilter]
    have hshape : ∃ (aty : String) (aid : Nat) (r0 : OTPRow),
        db.otps.find? (otpQuery now aty aid code purpose) = some r0 ∧
        db2.otps = updateFirst (otpQuery now aty aid code purpose)
          (fun r => { r with is_used := true }) db.otps := by
      unfold verify_otp at hv
      dsimp only at hv
      by_cases hat : containsAt (lowerStr ident)
      · rw [if_pos hat] at hv
        cases h1 : verify_otp_user_email db now (lowerStr ident) code purpose with
        | some res =>
          rw [h1] at hv
          obtain ⟨a1, db1⟩ := res
          dsimp only at hv
          have hdb : db1 = db2 := congrArg Prod.snd hv
          rw [hdb] at h1
          obtain ⟨u, r0, _, hfo, hsh⟩ :=
            verify_otp_user_email_inv db now (lowerStr ident) code purpose a1 db2 h1
          exact ⟨"user", u.id, r0, hfo, hsh⟩
        | none =>
          rw [h1] at hv
          dsimp only at hv
          cases h2 : verify_otp_pos_email db now (lowerStr ident) code purpose with
          | some res =>
            rw [h2] at hv
            obtain ⟨a1, db1⟩ := res
            dsimp only at hv
            have hdb : db1 = db2 := congrArg Prod.snd hv
            rw [hdb] at h2
            obtain ⟨p, r0, _, hfo, hsh⟩ :=
              verify_otp_pos_email_inv db now (lowerStr ident) code purpose a1 db2 h2
            exact ⟨"pos", p.id, r0, hfo, hsh⟩
          | none =>
            rw [h2] at hv
            dsimp only at hv
            have := congrArg Prod.fst hv
            exact absurd this (by simp)
      · rw [if_neg hat] at hv
        cases h1 : verify_otp_pos_phone db now (lowerStr ident) code purpose with
        | some res =>
          rw [h1] at hv
          obtain ⟨a1, db1⟩ := res
          dsimp only at hv
          have hdb : db1 = db2 := congrArg Prod.snd hv
          rw [hdb] at h1
          obtain ⟨p, r0, _, hfo, hsh⟩ :=
            verify_otp_pos_phone_inv db now (lowerStr ident) code purpose a1 db2 h1
          exact ⟨"pos", p.id, r0, hfo, hsh⟩
        | none =>
          rw [h1] at hv
          dsimp only at hv
          have := congrArg Prod.fst hv
          exact absurd this (by simp)
    obtain ⟨aty, aid, r0, hfo, hsh⟩ := hshape
    have hfilter : db2.otps.filter (unusedCodeFilter code purpose) = [] := by
      rw [hsh]
      exact updateFirst_consume (otpQuery now aty aid code purpose)
        (unusedCodeFilter code purpose) db.otps r0 hfo
        (fun r hr => otpQuery_implies_unusedCode now aty aid code purpose r hr)
        hmarked huniq
    refine ⟨hfilter, ?_⟩
    intro now2
    apply verify_otp_none_of_no_unused
    intro r hr
    cases hF : unusedCodeFilter code purpose r
    · rfl
    · exfalso
      have : r ∈ db2.otps.filter (unusedCodeFilter code purpose) :=
        List.mem_filter.mpr ⟨hr, hF⟩
      rw [hfilter] at this
      simp at this

/-- A stale unused OTP row for (user 1, "login"). -/
def exOtpOld : OTPRow :=
  { account_type := "user", account_id := 1, code := "111111",
    purpose := "login", expires_at := 300, is_used := false }

/-- Store holding `exUser` and the stale code. -/
def exDbO : Db :=
  { users := [exUser], posUsers := [], clients := [], refreshTokens := [],
    blacklist := [], otps := [exOtpOld] }

/-- The store after generating the fresh code "222222" at time 0. -/
def exDbO2 : Db :=
  match generate_otp exDbO (Account.user exUser) "login" "222222" 0 with
  | some (_, d) => d
  | none => exDbO

/-- `exUser` as returned by a successful OTP verification at time 10. -/
def exUserV : UserAcc := { exUser with last_login := some 10 }

/-- The store after verifying "222222" at time 10. -/
def exDbO3 : Db := (verify_otp exDbO2 10 "a@x.com" "222222" "login").2

/-- Witness for C5: after the concrete generation only the fresh row is
unused for the pair, and after one successful verification the same code is
rejected. -/
theorem otp_exclusive_single_use_witness :
    exDbO2.otps.filter (unusedPairFilter "user" 1 "login") =
      [{ account_type := "user", account_id := 1, code := "222222",
         purpose := "login", expires_at := 0 + OTP_EXPIRE_MINUTES * 60,
         is_used := false }] ∧
    (verify_otp exDbO2 10 "a@x.com" "222222" "login").1 =
      some (Account.user exUserV) ∧
    (verify_otp exDbO3 20 "a@x.com" "222222" "login").1 = none := by
  refine ⟨?_, by decide, ?_⟩
  · exact otp_exclusive_single_use.1 exDbO (Account.user exUser) "login" "222222"
      0 "user" 1 "a@x.com" "222222" exDbO2 (by decide) (by decide)
  · exact (otp_exclusive_single_use.2 exDbO2 10 "a@x.com" "222222" "login"
      (Account.user exUserV) exDbO3 (by decide) (by decide)).2 20

/-! ## Login policies and lockout (security.py:199-302, auth_service.py:31-96) -/

/-- Python `str.upper()`. -/
def upperStr (s : String) : String := String.mk (s.data.map Char.toUpper)

/-- The f-string of security.py:230-234. -/
def suspendedMsg (m : Nat) : String :=
  "Account suspended. Try again in " ++ toString m ++ " minutes."

/-- The login-time-window check of `enforce_login_policies`
(security.py:243-254), supporting a window that wraps midnight. -/
def checkLoginWindow (now : Nat) (a : UserAcc) : Except String UserAcc :=
  match a.allowed_login_start, a.allowed_login_end with
  | some s, some e =>
    let current := now % 86400
    let allowed := if s ≤ e then decide (s ≤ current) && decide (current ≤ e)
                   else decide (current ≥ s) || decide (current ≤ e)
    if allowed then Except.ok a else Except.error "Login not allowed at this time"
  | _, _ => Except.ok a

/-- `SecurityUtils.enforce_login_policies` (security.py:199-254) specialised
to the staff `User` model (it has an enum `status`, no `is_active`): the
status checks, then the suspension check - raising with the remaining
minutes while suspended, clearing the suspension and resetting
`failed_attempts` once it has elapsed - then the time window. -/
def enforce_login_policies (now : Nat) (a : UserAcc) : Except String UserAcc :=
  if statusName a.status ≠ "ACTIVE" ∧ upperStr (statusValue a.status) ≠ "ACTIVE" then
    Except.error "Account not active"
  else if ¬(statusName a.status = "APPROVED" ∨ statusName a.status = "ACTIVE") then
    Except.error "Account not active"
  else
    match a.suspended_until with
    | some t =>
      if now < t then Except.error (suspendedMsg ((t - now) / 60))
      else checkLoginWindow now { a with suspended_until := none, failed_attempts := 0 }
    | none => checkLoginWindow now a

/-- `SecurityUtils.register_failed_attempt` (security.py:290-302): increment
the counter and set the suspension timestamp once it reaches
`settings.MAX_FAIL`. -/
def register_failed_attempt (now : Nat) (a : UserAcc) : UserAcc :=
  let a1 := { a with failed_attempts := a.failed_attempts + 1 }
  if a1.failed_attempts ≥ MAX_FAIL then
    { a1 with suspended_until := some (now + SUSP_MIN * 60) }
  else a1

/-- `SecurityUtils.update_login_metadata` (security.py:256-287). -/
def update_login_metadata (now : Nat) (ip ua : String) (a : UserAcc) : UserAcc :=
  { a with
    failed_attempts := 0
    suspended_until := none
    last_login := some now
    last_login_ip := some ip
    last_login_user_agent := some (String.mk (ua.data.take 255)) }

/-- The staff email branch of `AuthService.authenticate`
(auth_service.py:37-96): case-insensitive email lookup, password check
(registering a failed attempt on mismatch), transparent legacy-hash
upgrade, policy enforcement (an HTTPException propagates to the caller),
then login-metadata update. -/
def authenticate_password_email (db : Db) (now : Nat)
    (identifier secret ip ua : String) (upSalt : Nat) :
    Except String (Option UserAcc × Db) :=
  match db.users.find? (fun x => lowerStr x.email == lowerStr identifier) with
  | none => Except.ok (none, db)
  | some u =>
    match u.password_hash with
    | none => Except.ok (none, db)
    | some h =>
      if verify_password secret h then
        let legacyHit := match bcrypt_checkpw (Digest.raw secret) h with
          | Except.ok true => true
          | _ => false
        let u1 := if legacyHit then
            { u with password_hash := some (hash_password secret upSalt) } else u
        match enforce_login_policies now u1 with
        | Except.error e => Except.error e
        | Except.ok u2 =>
          let u3 := update_login_metadata now ip ua u2
          let users2 := updateFirst (fun x => lowerStr x.email == lowerStr identifier)
            (fun _ => u3) db.users
          Except.ok (some u3, { db with users := users2 })
      else
        let u4 := register_failed_attempt now u
        let users2 := updateFirst (fun x => lowerStr x.email == lowerStr identifier)
          (fun _ => u4) db.users
        Except.ok (none, { db with users := users2 })

theorem enforce_suspended (now : Nat) (a : UserAcc) (t : Nat)
    (hst : a.status = UserStatusE.active)
    (hsu : a.suspended_until = some t) (hlt : now < t) :
    enforce_login_policies now a =
      Except.error (suspendedMsg ((t - now) / 60)) := by
  unfold enforce_login_policies
  rw [hst, hsu]
  rw [if_neg (by decide)]
  rw [if_neg (by decide)]
  dsimp only
  rw [if_pos hlt]

/-- C3: lockout bookkeeping.  Each failed credential check increments
`failed_attempts`; on reaching the configured maximum (5) the suspension
timestamp `now + 30 minutes` is set; while suspended, authentication with
the correct secret is rejected with the remaining-minutes message; once the
timestamp has elapsed the next policy check clears the suspension and
resets the counter; and any successful login returns an account whose
counter is reset to 0. -/
theorem lockout_policy :
    (MAX_FAIL = 5 ∧ SUSP_MIN = 30) ∧
    (∀ (now : Nat) (a : UserAcc),
      (register_failed_attempt now a).failed_attempts = a.failed_attempts + 1) ∧
    (∀ (now : Nat) (a : UserAcc), a.failed_attempts + 1 ≥ MAX_FAIL →
      (register_failed_attempt now a).suspended_until =
        some (now + SUSP_MIN * 60)) ∧
    (∀ (db : Db) (now : Nat) (identifier secret ip ua : String) (salt : Nat)
        (u : UserAcc) (h : StoredHash String) (t : Nat),
      db.users.find? (fun x => lowerStr x.email == lowerStr identifier) = some u →
      u.password_hash = some h →
      verify_password secret h = true →
      u.status = UserStatusE.active →
      u.suspended_until = some t →
      now < t →
      authenticate_password_email db now identifier secret ip ua salt =
        Except.error (suspendedMsg ((t - now) / 60))) ∧
    (∀ (now : Nat) (a : UserAcc) (t : Nat),
      a.status = UserStatusE.active →
      a.suspended_until = some t →
      t ≤ now →
      a.allowed_login_start = none →
      enforce_login_policies now a =
        Except.ok { a with suspended_until := none, failed_attempts := 0 }) ∧
    (∀ (db : Db) (now : Nat) (identifier secret ip ua : String) (salt : Nat)
        (v : UserAcc) (db2 : Db),
      authenticate_password_email db now identifier secret ip ua salt =
        Except.ok (some v, db2) →
      v.failed_attempts = 0 ∧ v.suspended_until = none) := by
  refine ⟨⟨rfl, rfl⟩, ?_, ?_, ?_, ?_, ?_⟩
  · intro now a
    unfold register_failed_attempt
    dsimp only
    by_cases h : a.failed_attempts + 1 ≥ MAX_FAIL
    · rw [if_pos h]
    · rw [if_neg h]
  · intro now a h
    unfold register_failed_attempt
    dsimp only
    rw [if_pos h]
  · intro db now identifier secret ip ua salt u h t hfind hhash hver hst hsu hlt
    unfold authenticate_password_email
    rw [hfind]
    dsimp only
    rw [hhash]
    dsimp only
    rw [if_pos hver]
    have henf : ∀ u1 : UserAcc, u1.status = UserStatusE.active →
        u1.suspended_until = some t →
        enforce_login_policies now u1 =
          Except.error (suspendedMsg ((t - now) / 60)) := by
      intro u1 h1 h2
      exact enforce_suspended now u1 t h1 h2 hlt
    cases hbc : bcrypt_checkpw (Digest.raw secret) h with
    | ok b =>
      cases b
      · dsimp only
        rw [if_neg (show ¬(false = true) by decide)]
        rw [henf u hst hsu]
      · dsimp only
        rw [if_pos (show true = true from rfl)]
        rw [henf { u with password_hash := some (hash_password secret salt) }
          hst hsu]
    | error e =>
      dsimp only
      rw [if_neg (show ¬(false = true) by decide)]
      rw [henf u hst hsu]
  · intro now a t hst hsu hle hwin
    unfold enforce_login_policies
    rw [hst, hsu]
    rw [if_neg (by decide)]
    rw [if_neg (by decide)]
    dsimp only
    rw [if_neg (by omega)]
    unfold checkLoginWindow
    dsimp only
    rw [hwin]
  · intro db now identifier secret ip ua salt v db2 hv
    unfold authenticate_password_email at hv
    cases hfind : db.users.find? (fun x => lowerStr x.email == lowerStr identifier) with
    | none =>
      rw [hfind] at hv
      dsimp only at hv
      injection hv with hv
      have := congrArg Prod.fst hv
      exact absurd this (by simp)
    | some u =>
      rw [hfind] at hv
      dsimp only at hv
      cases hhash : u.password_hash with
      | none =>
        rw [hhash] at hv
        dsimp only at hv
        injection hv with hv
        have := congrArg Prod.fst hv
        exact absurd this (by simp)
      | some h =>
        rw [hhash] at hv
        dsimp only at hv
        by_cases hver : verify_password secret h = true
        · rw [if_pos hver] at hv
          cases henf : enforce_login_policies now
              (if (match bcrypt_checkpw (Digest.raw secret) h with
                | Except.ok true => true
                | _ => false) = true then
                { u with password_hash := some (hash_password secret salt) }
              else u) with
          | error e =>
            rw [henf] at hv
            exact absurd hv (by simp)
          | ok u2 =>
            rw [henf] at hv
            dsimp only at hv
            injection hv with hv
            have hfst := congrArg Prod.fst hv
            dsimp only at hfst
            injection hfst with hfst
            rw [← hfst]
            exact ⟨rfl, rfl⟩
        · rw [if_neg hver] at hv
          injection hv with hv
          have := congrArg Prod.fst hv
          exact absurd this (by simp)

/-- A staff user one failed attempt away from the lockout threshold. -/
def exUser4 : UserAcc := { exUser with failed_attempts := 4 }

/-- `exUser` suspended until time 1800 after 5 failures. -/
def exUserSusp : UserAcc :=
  { exUser with failed_attempts := 5, suspended_until := some 1800 }

def exDbSusp : Db :=
  { users := [exUserSusp], posUsers := [], clients := [], refreshTokens := [],
    blacklist := [], otps := [] }

/-- The account returned by a concrete successful login. -/
def exAuthV : UserAcc :=
  match authenticate_password_email exDbClean 10 "a@x.com" "Secret1!" "ip" "ua" 3 with
  | Except.ok (some v, _) => v
  | _ => exUser

/-- The store after that login. -/
def exAuthDb : Db :=
  match authenticate_password_email exDbClean 10 "a@x.com" "Secret1!" "ip" "ua" 3 with
  | Except.ok (_, d) => d
  | _ => exDbClean

/-- Witness for C3: the fifth failure at time 0 suspends until 1800 s
(30 min); at time 600 the correct password is rejected with 20 minutes
remaining; at time 1800 the policy check clears the suspension and resets
the counter; and a subsequent successful login returns the account with
`failed_attempts = 0`. -/
theorem lockout_policy_witness :
    (register_failed_attempt 0 exUser4).suspended_until = some 1800 ∧
    authenticate_password_email exDbSusp 600 "a@x.com" "Secret1!" "ip" "ua" 3 =
      Except.error (suspendedMsg 20) ∧
    enforce_login_policies 1800 exUserSusp =
      Except.ok { exUserSusp with suspended_until := none, failed_attempts := 0 } ∧
    exAuthV.failed_attempts = 0 := by
  refine ⟨?_, ?_, ?_, ?_⟩
  · exact lockout_policy.2.2.1 0 exUser4 (by decide)
  · exact lockout_policy.2.2.2.1 exDbSusp 600 "a@x.com" "Secret1!" "ip" "ua" 3
      exUserSusp (hash_password "Secret1!" 0) 1800 (by decide) (by decide)
      (by decide) (by decide) (by decide) (by decide)
  · exact lockout_policy.2.2.2.2.1 1800 exUserSusp 1800 (by decide) (by decide)
      (by decide) (by decide)
  · exact (lockout_policy.2.2.2.2.2 exDbClean 10 "a@x.com" "Secret1!" "ip" "ua" 3
      exAuthV exAuthDb (by decide)).1

/-! ## Password change (auth_service.py:542-617) -/

def acctPasswordHash : Account → Option (StoredHash String)
  | Account.user u => u.password_hash
  | Account.pos p => p.password_hash
  | Account.client c => c.password_hash

/-- Persisting the re-hashed password (auth_service.py:605-615): the
`last_password_change` attribute exists on none of the three models; the
`require_password_change` flag exists on `User` and `POSUser` only. -/
def setPasswordHash (db : Db) (aty : String) (aid : Nat) (h : StoredHash String) : Db :=
  if aty = "user" then
    let users2 := updateFirst (fun x : UserAcc => x.id == aid)
      (fun x => { x with password_hash := some h, require_password_change := false })
      db.users
    { db with users := users2 }
  else if aty = "pos" then
    let pos2 := updateFirst (fun x : POSUserAcc => x.id == aid)
      (fun x => { x with password_hash := some h, require_password_change := false })
      db.posUsers
    { db with posUsers := pos2 }
  else if aty = "client" then
    let cl2 := updateFirst (fun x : ClientAcc => x.id == aid)
      (fun x => { x with password_hash := some h }) db.clients
    { db with clients := cl2 }
  else db

/-- `AuthService.change_password` (auth_service.py:542-617): new must equal
confirm, at least 8 characters, the account must resolve, and the old
password must verify against the stored hash - except that with no stored
hash (first-time setup) an empty old password is required instead.  Note:
`validate_password_strength` is never called here. -/
def change_password (db : Db) (aty : String) (aid : Nat)
    (oldPw newPw confirmPw : String) (salt : Nat) : Bool × Db :=
  if newPw ≠ confirmPw then (false, db)
  else if newPw.length < 8 then (false, db)
  else
    match lookupAccount db aty aid with
    | none => (false, db)
    | some acct =>
      match acctPasswordHash acct with
      | none =>
        if oldPw ≠ "" then (false, db)
        else (true, setPasswordHash db aty aid (hash_password newPw salt))
      | some h =>
        if verify_password oldPw h then
          (true, setPasswordHash db aty aid (hash_password newPw salt))
        else (false, db)

/-- A store whose staff user has no password hash yet (first-time setup). -/
def exDbCP : Db :=
  { users := [{ exUser with password_hash := none }], posUsers := [], clients := [],
    refreshTokens := [], blacklist := [], otps := [] }

/-- Counterexample to C8 as stated: `change_password` accepts the new
password "abcdefgh" although it violates the complexity rules (no digit, no
uppercase) - the code checks only the 8-character minimum and never calls
`validate_password_strength`. -/
theorem change_password_counterexample :
    (change_password exDbCP "user" 1 "" "abcdefgh" "abcdefgh" 3).1 = true ∧
    validate_password_strength "abcdefgh" = (false, "Must contain a number") := by
  constructor
  · decide
  · decide

/-- C8 amended: `change_password` succeeds iff new = confirm, the new
password has at least 8 characters, the account resolves, and the old
password verifies against the stored hash (or, with no stored hash, the
old password is empty); complexity beyond the length minimum is not
enforced; every failure leaves the store unchanged. -/
theorem change_password_spec (db : Db) (aty : String) (aid : Nat)
    (oldPw newPw confirmPw : String) (salt : Nat) :
    ((change_password db aty aid oldPw newPw confirmPw salt).1 = true ↔
      (newPw = confirmPw ∧ 8 ≤ newPw.length ∧
       ∃ acct, lookupAccount db aty aid = some acct ∧
         (match acctPasswordHash acct with
          | none => oldPw = ""
          | some h => verify_password oldPw h = true))) ∧
    ((change_password db aty aid oldPw newPw confirmPw salt).1 = false →
      (change_password db aty aid oldPw newPw confirmPw salt).2 = db) := by
  unfold change_password
  by_cases h1 : newPw = confirmPw
  · rw [if_neg (not_not_intro h1)]
    by_cases h2 : newPw.length < 8
    · rw [if_pos h2]
      constructor
      · constructor
        · intro hc; exact absurd hc (by simp)
        · rintro ⟨-, hlen, -⟩; exact absurd hlen (by omega)
      · intro _; rfl
    · rw [if_neg h2]
      cases hl : lookupAccount db aty aid with
      | none =>
        dsimp only
        constructor
        · constructor
          · intro hc; exact absurd hc (by simp)
          · rintro ⟨-, -, acct, hacct, -⟩; cases hacct
        · intro _; rfl
      | some acct =>
        dsimp only
        cases hh : acctPasswordHash acct with
        | none =>
          dsimp only
          by_cases ho : oldPw = ""
          · rw [if_neg (not_not_intro ho)]
            constructor
            · constructor
              · intro _
                exact ⟨h1, by omega, acct, rfl, by rw [hh]; exact ho⟩
              · intro _; rfl
            · intro hc; exact absurd hc (by simp)
          · rw [if_pos ho]
            constructor
            · constructor
              · intro hc; exact absurd hc (by simp)
              · rintro ⟨-, -, acct2, hacct2, hm⟩
                injection hacct2 with hacct2
                rw [← hacct2, hh] at hm
                exact absurd hm ho
            · intro _; rfl
        | some h =>
          dsimp only
          by_cases hv : verify_password oldPw h = true
          · rw [if_pos hv]
            constructor
            · constructor
              · intro _
                exact ⟨h1, by omega, acct, rfl, by rw [hh]; exact hv⟩
              · intro _; rfl
            · intro hc; exact absurd hc (by simp)
          · rw [if_neg hv]
            constructor
            · constructor
              · intro hc; exact absurd hc (by simp)
              · rintro ⟨-, -, acct2, hacct2, hm⟩
                injection hacct2 with hacct2
                rw [← hacct2, hh] at hm
                exact absurd hm hv
            · intro _; rfl
  · rw [if_pos h1]
    constructor
    · constructor
      · intro hc; exact absurd hc (by simp)
      · rintro ⟨he, -, -⟩; exact absurd he h1
    · intro _; rfl

/-- Witness for the amended C8: changing with the correct old password
succeeds; a wrong old password fails and leaves the store unchanged. -/
theorem change_password_spec_witness :
    (change_password exDbClean "user" 1 "Secret1!" "NewPass1" "NewPass1" 4).1 = true ∧
    (change_password exDbClean "user" 1 "WRONG" "NewPass1" "NewPass1" 4).2 = exDbClean := by
  constructor
  · refine (change_password_spec exDbClean "user" 1 "Secret1!" "NewPass1" "NewPass1" 4).1.mpr
      ⟨rfl, by decide, Account.user exUser, by decide, ?_⟩
    show verify_password "Secret1!" (hash_password "Secret1!" 0) = true
    decide
  · exact (change_password_spec exDbClean "user" 1 "WRONG" "NewPass1" "NewPass1" 4).2
      (by decide)

/-! ## Route guards (auth_dependencies.py:73-125) -/

/-- An API key row (models/security.py `APIKey`) with its inline JSON
permission list. -/
structure APIKeyRec where
  company_id : Nat
  name : String
  key : String
  secret : StoredHash String
  is_active : Bool
  permissions : Option (List String)
  expires_at : Option Nat
deriving DecidableEq, Repr

/-- `require_role`'s checker (auth_dependencies.py:73-117), dispatching on
the caller's account type (which `validate_access_token` makes agree with
the account object): clients are rejected outright when the route allows no
client roles, and otherwise hit `account.role.name` - an attribute the
`Client` model does not have; a staff user with the `UserRole.ADMIN` enum
value bypasses the list check; other staff users must appear in the allowed
list; any other account type (e.g. POS) is rejected as unknown. -/
def require_role (allowedUserRoles : List UserRoleE)
    (allowedClientRoles : List String) (acct : Account) : Except String Account :=
  match acct with
  | Account.client _ =>
    if allowedClientRoles = [] then
      Except.error "Clients not allowed for this route"
    else Except.error "AttributeError: Client has no attribute role"
  | Account.user u =>
    if u.role = UserRoleE.admin then Except.ok (Account.user u)
    else if allowedUserRoles = [] then
      Except.error "Users not allowed for this route"
    else if u.role ∈ allowedUserRoles then Except.ok (Account.user u)
    else Except.error "User role not authorized"
  | Account.pos _ => Except.error "Unknown account type"

/-- `require_permission`'s checker (auth_dependencies.py:119-125): API-key
callers only; the required permission must be in the key's inline list
(`api_key.permissions or []`). -/
def require_permission (required : String) (k : APIKeyRec) :
    Except String APIKeyRec :=
  if required ∈ k.permissions.getD [] then Except.ok k
  else Except.error "Insufficient permissions"

/-- The union of the permissions of a caller's assigned role rows (the
flattening the claim describes; no checker in the code computes it). -/
def rolesPermissionUnion (rs : List RoleRow) : List String :=
  (rs.map RoleRow.permissions).flatten

def isOkE {α : Type} : Except String α → Bool
  | Except.ok _ => true
  | Except.error _ => false

/-- The sentinel role row named SUPER_ADMIN, with no permission rows. -/
def superAdminRole : RoleRow := { name := "SUPER_ADMIN", permissions := [] }

/-- A staff user whose assigned role row is named SUPER_ADMIN but whose
enum role is MAKER. -/
def exMaker : UserAcc :=
  { exUser with
    id := 7
    username := "mk"
    email := "m@x.com"
    role := UserRoleE.maker
    roles := [superAdminRole] }

/-- A staff user with the ADMIN enum value and no role rows at all. -/
def exAdminUser : UserAcc :=
  { exUser with
    id := 8
    username := "root"
    email := "r@x.com"
    role := UserRoleE.admin
    roles := [] }

/-- Counterexample to C7 as stated: a caller whose assigned role row is
named "SUPER_ADMIN" is still rejected by a route check (no SUPER_ADMIN
bypass exists), while a caller with the ADMIN enum value passes a check
although "user:delete" is not in the union of its roles' permissions (the
permission rows are never consulted). -/
theorem super_admin_bypass_counterexample :
    isOkE (require_role [UserRoleE.admin] [] (Account.user exMaker)) = false ∧
    exMaker.roles = [superAdminRole] ∧
    isOkE (require_role [] [] (Account.user exAdminUser)) = true ∧
    ("user:delete" ∈ rolesPermissionUnion exAdminUser.roles → False) := by
  refine ⟨by decide, by decide, by decide, ?_⟩
  intro h
  simp [rolesPermissionUnion, exAdminUser, exUser] at h

/-- C7 amended: account-based route checks are role-membership checks, not
permission-set checks: a staff caller passes `require_role` iff its enum
role is ADMIN (unconditional bypass) or appears in the allowed list - the
roles' permission rows are never consulted; permission strings are checked
only for API-key callers, by membership in the key's inline list. -/
theorem require_role_permission_spec :
    (∀ (aU : List UserRoleE) (aC : List String) (u : UserAcc),
      isOkE (require_role aU aC (Account.user u)) = true ↔
        (u.role = UserRoleE.admin ∨ u.role ∈ aU)) ∧
    (∀ (required : String) (k : APIKeyRec),
      isOkE (require_permission required k) = true ↔
        required ∈ k.permissions.getD []) := by
  constructor
  · intro aU aC u
    unfold require_role
    dsimp only
    by_cases hadm : u.role = UserRoleE.admin
    · rw [if_pos hadm]
      simp [isOkE, hadm]
    · rw [if_neg hadm]
      by_cases hemp : aU = []
      · rw [if_pos hemp]
        simp [isOkE, hadm, hemp]
      · rw [if_neg hemp]
        by_cases hmem : u.role ∈ aU
        · rw [if_pos hmem]
          simp [isOkE, hmem]
        · rw [if_neg hmem]
          simp [isOkE, hadm, hmem]
  · intro required k
    unfold require_permission
    by_cases hmem : required ∈ k.permissions.getD []
    · rw [if_pos hmem]
      simp [isOkE, hmem]
    · rw [if_neg hmem]
      simp [isOkE, hmem]

end FreresUnis
